import Mathlib

/-!
Verification of the youtube-music-control client.

The definitions below are a shallow embedding of the canonical implementation
in `src/youtube_music_control/__main__.py` (per the design notes, the packaged
module variant with PATCH/DELETE support is the authoritative one).  Python
values flowing through `json` are modelled by the `Json` inductive; Python
dicts are association lists with insertion-order update semantics; the
network is modelled by an `Env` of responses, and the observable behaviour
of a run is a list of `Effect`s (prints and dispatched HTTP requests).

Modelling conventions (noted once here):
* JSON / Python float numbers are modelled exactly as rationals rather than
  IEEE doubles; `inf`/`nan` (unrepresentable in `ℚ`) and underscore digit
  separators are modelled as parse failures.
* `.get`/`in`/`.items()` applied to a non-dict value raises `TypeError` in
  Python; the total helpers below return the default instead.  No claim
  exercises these cases.
* Bodies that the code passes straight to `response.json()` (auth and doc
  responses) are provided by the environment already parsed; the main
  response body stays text because `make_request` catches the parse failure.
-/

/-- JSON values as produced by Python's `json.loads`: numbers keep the
int/float distinction that `json` makes. -/
inductive Json where
  | null : Json
  | bool (b : Bool) : Json
  | int (n : Int) : Json
  | float (q : ℚ) : Json
  | str (s : String) : Json
  | arr (items : List Json) : Json
  | obj (members : List (String × Json)) : Json

instance : Inhabited Json := ⟨Json.null⟩

/-- First-match lookup in an association list (Python dict lookup; keys are
unique by construction since all updates go through `alistSet`). -/
def alistGet {α : Type} (l : List (String × α)) (k : String) : Option α :=
  match l with
  | [] => none
  | (k', v) :: t => if k' = k then some v else alistGet t k

/-- Python dict assignment `d[k] = v`: update in place keeping the original
insertion position, else append. -/
def alistSet {α : Type} (l : List (String × α)) (k : String) (v : α) :
    List (String × α) :=
  match l with
  | [] => [(k, v)]
  | (k', v') :: t => if k' = k then (k, v) :: t else (k', v') :: alistSet t k v

/-- `j.get(k)` on a dict value (`none` on a missing key or non-dict). -/
def jget (j : Json) (k : String) : Option Json :=
  match j with
  | Json.obj kvs => alistGet kvs k
  | _ => none

/-- `k in j` for a dict value. -/
def jHasKey (j : Json) (k : String) : Bool :=
  (jget j k).isSome

/-- The members of a dict value (`.items()`). -/
def asObj (j : Json) : List (String × Json) :=
  match j with
  | Json.obj kvs => kvs
  | _ => []

/-- The elements of a list value. -/
def asArr (j : Json) : List Json :=
  match j with
  | Json.arr l => l
  | _ => []

/-- `isinstance(-, dict)`. -/
def Json.isDict : Json → Bool
  | Json.obj _ => true
  | _ => false

/-- Python truthiness of a decoded JSON value. -/
def pyTruthy : Json → Bool
  | Json.null => false
  | Json.bool b => b
  | Json.int n => n ≠ 0
  | Json.float q => q ≠ 0
  | Json.str s => ¬ s.isEmpty
  | Json.arr l => ¬ l.isEmpty
  | Json.obj l => ¬ l.isEmpty

/-- Python `==` between an optional JSON value and a string literal
(true exactly when the value is that string). -/
def isJsonStr (j : Option Json) (s : String) : Bool :=
  match j with
  | some (Json.str t) => t = s
  | _ => false

/-- The string used as a dict key when wrapping (`required[0]` is a string in
every JSON-schema document; Python would accept any hashable value). -/
def jKeyStr : Json → String
  | Json.str s => s
  | _ => ""

/-- Python's `str.startswith`. -/
def pyStartsWith (s pre : String) : Bool :=
  pre.data.isPrefixOf s.data

/-- Python's `str.endswith`. -/
def pyEndsWith (s suf : String) : Bool :=
  suf.data.isSuffixOf s.data

/-- Character-indexed slicing `s[n:]` (Python slices by code point). -/
def strDrop (s : String) (n : Nat) : String :=
  ⟨s.data.drop n⟩

/-- Python whitespace for `str.strip()` / `float()`. -/
def pyWs (c : Char) : Bool :=
  c = ' ' ∨ c = '\t' ∨ c = '\n' ∨ c = '\r' ∨ c = Char.ofNat 11 ∨ c = Char.ofNat 12

/-- Python's `str.strip()`. -/
def pyStrip (s : String) : String :=
  ⟨((s.data.dropWhile pyWs).reverse.dropWhile pyWs).reverse⟩

/-- Python's `str.rstrip("/")`. -/
def rstripSlash (s : String) : String :=
  ⟨(s.data.reverse.dropWhile (fun c => c = '/')).reverse⟩

/-- Python's `str.lstrip("/")`. -/
def lstripSlash (s : String) : String :=
  ⟨s.data.dropWhile (fun c => c = '/')⟩

/-! ### A model of `json.loads` and of Python's `float()` -/

/-- JSON whitespace. -/
def jsonWs (c : Char) : Bool :=
  c = ' ' ∨ c = '\t' ∨ c = '\n' ∨ c = '\r'

def skipWs (l : List Char) : List Char :=
  l.dropWhile jsonWs

def isDigitC (c : Char) : Bool :=
  '0' ≤ c ∧ c ≤ '9'

def digitsToNat (l : List Char) : Nat :=
  l.foldl (fun a c => a * 10 + (c.toNat - 48)) 0

def hexVal (c : Char) : Option Nat :=
  if '0' ≤ c ∧ c ≤ '9' then some (c.toNat - 48)
  else if 'a' ≤ c ∧ c ≤ 'f' then some (c.toNat - 87)
  else if 'A' ≤ c ∧ c ≤ 'F' then some (c.toNat - 55)
  else none

/-- Decode a JSON string body (the opening quote already consumed); returns
the decoded characters and the remaining input.  `\u` escapes map code
points directly (astral surrogate pairing is not modelled). -/
def parseStrChars : List Char → Option (List Char × List Char)
  | [] => none
  | '"' :: r => some ([], r)
  | '\\' :: 'u' :: h1 :: h2 :: h3 :: h4 :: r =>
    match hexVal h1, hexVal h2, hexVal h3, hexVal h4 with
    | some a, some b, some c, some d =>
      (parseStrChars r).map fun p =>
        (Char.ofNat (((a * 16 + b) * 16 + c) * 16 + d) :: p.1, p.2)
    | _, _, _, _ => none
  | '\\' :: e :: r =>
    let esc : Option Char :=
      if e = '"' then some '"'
      else if e = '\\' then some '\\'
      else if e = '/' then some '/'
      else if e = 'b' then some (Char.ofNat 8)
      else if e = 'f' then some (Char.ofNat 12)
      else if e = 'n' then some '\n'
      else if e = 'r' then some '\r'
      else if e = 't' then some '\t'
      else none
    match esc with
    | some c => (parseStrChars r).map fun p => (c :: p.1, p.2)
    | none => none
  | c :: r =>
    if c.toNat < 32 then none
    else (parseStrChars r).map fun p => (c :: p.1, p.2)

/-- The exponent suffix of a JSON number literal. -/
def parseNumExp (base : ℚ) (l : List Char) : Option (Json × List Char) :=
  let p := match l with
    | '+' :: t => ((1 : Int), t)
    | '-' :: t => ((-1 : Int), t)
    | t => ((1 : Int), t)
  let es := p.2.takeWhile isDigitC
  if es.isEmpty then none
  else some (Json.float (base * (10 : ℚ) ^ (p.1 * (digitsToNat es : Int))),
             p.2.drop es.length)

/-- A JSON number literal (`json` yields `int` exactly when there is neither
a fraction nor an exponent; leading zeros are rejected). -/
def parseNum (l : List Char) : Option (Json × List Char) :=
  let sp := match l with
    | '-' :: r => (true, r)
    | _ => (false, l)
  let neg := sp.1
  let ds := sp.2.takeWhile isDigitC
  let r1 := sp.2.drop ds.length
  if ds.isEmpty then none
  else if ds.length > 1 ∧ ds.headI = '0' then none
  else
    let ip : ℚ := (digitsToNat ds : ℚ)
    let ipq : ℚ := if neg then -ip else ip
    match r1 with
    | '.' :: r2 =>
      let fs := r2.takeWhile isDigitC
      let r3 := r2.drop fs.length
      if fs.isEmpty then none
      else
        let frac : ℚ := (digitsToNat fs : ℚ) / (10 : ℚ) ^ fs.length
        let q : ℚ := if neg then -(ip + frac) else ip + frac
        match r3 with
        | 'e' :: r4 => parseNumExp q r4
        | 'E' :: r4 => parseNumExp q r4
        | _ => some (Json.float q, r3)
    | 'e' :: r4 => parseNumExp ipq r4
    | 'E' :: r4 => parseNumExp ipq r4
    | _ =>
      some (Json.int (if neg then -(digitsToNat ds : Int) else (digitsToNat ds : Int)), r1)

mutual

/-- One JSON value (fuel-indexed recursive descent). -/
def parseVal : Nat → List Char → Option (Json × List Char)
  | 0, _ => none
  | Nat.succ fuel, l =>
    match skipWs l with
    | 'n' :: 'u' :: 'l' :: 'l' :: r => some (Json.null, r)
    | 't' :: 'r' :: 'u' :: 'e' :: r => some (Json.bool true, r)
    | 'f' :: 'a' :: 'l' :: 's' :: 'e' :: r => some (Json.bool false, r)
    | '"' :: r => (parseStrChars r).map fun p => (Json.str ⟨p.1⟩, p.2)
    | '[' :: r =>
      (match skipWs r with
       | ']' :: r2 => some (Json.arr [], r2)
       | _ => parseItems fuel r [])
    | '{' :: r =>
      (match skipWs r with
       | '}' :: r2 => some (Json.obj [], r2)
       | _ => parseMembers fuel r [])
    | rest => parseNum rest

/-- The comma-separated elements of a non-empty array. -/
def parseItems : Nat → List Char → List Json → Option (Json × List Char)
  | 0, _, _ => none
  | Nat.succ fuel, l, acc =>
    match parseVal fuel l with
    | none => none
    | some (v, r) =>
      match skipWs r with
      | ',' :: r2 => parseItems fuel r2 (acc ++ [v])
      | ']' :: r2 => some (Json.arr (acc ++ [v]), r2)
      | _ => none

/-- The members of a non-empty object (duplicate keys: last wins, first
position kept — Python dict construction). -/
def parseMembers : Nat → List Char → List (String × Json) →
    Option (Json × List Char)
  | 0, _, _ => none
  | Nat.succ fuel, l, acc =>
    match skipWs l with
    | '"' :: r =>
      (match parseStrChars r with
       | none => none
       | some (kcs, r2) =>
         match skipWs r2 with
         | ':' :: r3 =>
           (match parseVal fuel r3 with
            | none => none
            | some (v, r4) =>
              let acc' := alistSet acc ⟨kcs⟩ v
              match skipWs r4 with
              | ',' :: r5 => parseMembers fuel r5 acc'
              | '}' :: r5 => some (Json.obj acc', r5)
              | _ => none)
         | _ => none)
    | _ => none

end

/-- Python's `json.loads` (`none` models `json.JSONDecodeError`).  The fuel
`2 * length + 4` dominates the recursion depth: every two fuel steps consume
at least one input character. -/
def jsonLoads (s : String) : Option Json :=
  match parseVal (2 * s.length + 4) s.data with
  | none => none
  | some (j, rest) => if (skipWs rest).isEmpty then some j else none

/-- The exponent suffix accepted by Python's `float()` (must end the input). -/
def floatExp (neg : Bool) (base : ℚ) (r : List Char) : Option ℚ :=
  let p := match r with
    | '+' :: t => ((1 : Int), t)
    | '-' :: t => ((-1 : Int), t)
    | t => ((1 : Int), t)
  let es := p.2.takeWhile isDigitC
  if es.isEmpty ∨ ¬ (p.2.drop es.length).isEmpty then none
  else
    let q := base * (10 : ℚ) ^ (p.1 * (digitsToNat es : Int))
    some (if neg then -q else q)

/-- Python's `float(str)` on the decimal forms (`"1."` and `".5"` are
accepted, leading zeros allowed, surrounding whitespace stripped). -/
def parseFloat (s : String) : Option ℚ :=
  let l := (s.data.dropWhile pyWs).reverse.dropWhile pyWs |>.reverse
  let sp := match l with
    | '+' :: r => (false, r)
    | '-' :: r => (true, r)
    | _ => (false, l)
  let neg := sp.1
  let ds := sp.2.takeWhile isDigitC
  let r1 := sp.2.drop ds.length
  match r1 with
  | [] =>
    if ds.isEmpty then none
    else some (if neg then -(digitsToNat ds : ℚ) else (digitsToNat ds : ℚ))
  | '.' :: r2 =>
    let fs := r2.takeWhile isDigitC
    let r3 := r2.drop fs.length
    if ds.isEmpty ∧ fs.isEmpty then none
    else
      let q : ℚ := (digitsToNat ds : ℚ) + (digitsToNat fs : ℚ) / (10 : ℚ) ^ fs.length
      match r3 with
      | [] => some (if neg then -q else q)
      | 'e' :: r4 => floatExp neg q r4
      | 'E' :: r4 => floatExp neg q r4
      | _ => none
  | 'e' :: r4 => if ds.isEmpty then none else floatExp neg (digitsToNat ds : ℚ) r4
  | 'E' :: r4 => if ds.isEmpty then none else floatExp neg (digitsToNat ds : ℚ) r4
  | _ => none

/-- Python's `float(x)` on a decoded JSON value (`none` models the raised
`TypeError`/`ValueError` that the code catches). -/
def pyFloat : Json → Option ℚ
  | Json.int n => some (n : ℚ)
  | Json.float q => some q
  | Json.bool b => some (if b then 1 else 0)
  | Json.str s => parseFloat s
  | _ => none

/-! ### The client (`src/youtube_music_control/__main__.py`) -/

/-- One method entry of the endpoint catalog (`fetch_api_doc` stores
`{"description": ..., "data": ..., "schema": ...}`). -/
structure MethodDetails where
  description : Json
  data : Option Json
  schema : Option Json

/-- The endpoint catalog: endpoint name ↦ HTTP method ↦ details. -/
def Catalog : Type :=
  List (String × List (String × MethodDetails))

/-- Observable behaviour of a run: prints and dispatched HTTP requests, in
order.  `printPretty j` is `print(json.dumps(j, indent=2))`, `printPlain j`
is `print(j)` (Python `str` rendering), `crash` is an uncaught exception. -/
inductive Effect where
  | print (s : String) : Effect
  | printPretty (j : Json) : Effect
  | printPlain (j : Json) : Effect
  | httpRequest (method : String) (url : String) (body : Option Json) : Effect
  | displayList (endpoints : Catalog) : Effect
  | printHelp : Effect
  | usageError (msg : String) : Effect
  | crash : Effect

/-- `f"Request failed: {status_code} {reason}"`. -/
def requestFailedMsg (status : Nat) (reason : String) : String :=
  s!"Request failed: {status} {reason}"

/-- One HTTP response of the environment. -/
structure HttpResponse where
  status : Nat
  reason : String

/-- The server side of a run: the three responses the code can receive.
`docJson`/`authJson` are the parsed bodies (see the header note); `reqBody`
is the raw text of the main response. -/
structure Env where
  doc : HttpResponse
  docJson : Json
  auth : HttpResponse
  authJson : Json
  req : HttpResponse
  reqBody : String

/-- The `API` object after `__init__` (which right-strips `/` from both
configuration values). -/
structure API where
  server : String
  api : String

/-- `API.__init__`. -/
def API.init (server api : String) : API :=
  ⟨rstripSlash server, rstripSlash api⟩

/-- `API.authenticate`: POST `{server}/auth/{username}`, then on non-200
report and return `None`, else return `response.json().get("accessToken")`. -/
def API.authenticate (a : API) (username : String) (verbose : Bool)
    (resp : HttpResponse) (body : Json) : List Effect × Option Json :=
  let url := a.server ++ "/auth/" ++ username
  if resp.status ≠ 200 then
    ([Effect.httpRequest "POST" url none,
      Effect.print (requestFailedMsg resp.status resp.reason),
      Effect.print url], none)
  else
    ([Effect.httpRequest "POST" url none] ++
      (if verbose then [Effect.print s!"POST {url} {resp.status}"] else []),
     jget body "accessToken")

/-- The per-method body of the catalog loop: extract description and, for
POST/PATCH operations with a `requestBody`, the body description and the
`application/json` schema. -/
def mkDetails (endpoint m : String) (details : Json) : MethodDetails :=
  let description := (jget details "description").getD (Json.str endpoint)
  if (m = "POST" ∨ m = "PATCH") ∧ jHasKey details "requestBody" then
    let req_body := (jget details "requestBody").getD (Json.obj [])
    let dataDesc := (jget req_body "description").getD (Json.str "no description")
    let content := (jget req_body "content").getD (Json.obj [])
    let schema :=
      if jHasKey content "application/json" then
        some ((jget ((jget content "application/json").getD (Json.obj []))
                  "schema").getD (Json.obj []))
      else none
    ⟨description, some dataDesc, schema⟩
  else ⟨description, none, none⟩

/-- `endpoints[endpoint][method.upper()] = {...}` for one `(method, details)`
pair of a path's operations object. -/
def addMethod (endpoint : String) (eps : Catalog) (md : String × Json) :
    Catalog :=
  alistSet eps endpoint
    (alistSet ((alistGet eps endpoint).getD []) md.1.toUpper
      (mkDetails endpoint md.1.toUpper md.2))

/-- One iteration of the `for path, methods in paths.items()` loop of
`fetch_api_doc`. -/
def addPath (api : String) (endpoints : Catalog) (pm : String × Json) :
    Catalog :=
  if ¬ pyStartsWith pm.1 api then endpoints
  else if pyEndsWith pm.1 "-info" then endpoints
  else
    let endpoint := lstripSlash (strDrop pm.1 api.length)
    let endpoints1 :=
      if (alistGet endpoints endpoint).isNone then alistSet endpoints endpoint []
      else endpoints
    (asObj pm.2).foldl (addMethod endpoint) endpoints1

/-- The catalog built by `fetch_api_doc` from the document's `paths`. -/
def buildEndpoints (api : String) (paths : List (String × Json)) : Catalog :=
  paths.foldl (addPath api) []

/-- `API.fetch_api_doc`: GET `{server}/doc`; on non-200 report and return an
empty catalog; on 200 (optionally echo the document) build the catalog. -/
def API.fetch_api_doc (a : API) (verbose print_data : Bool)
    (resp : HttpResponse) (body : Json) : List Effect × Catalog :=
  let url := a.server ++ "/doc"
  if resp.status ≠ 200 then
    ([Effect.httpRequest "GET" url none,
      Effect.print (requestFailedMsg resp.status resp.reason),
      Effect.print url], [])
  else
    ([Effect.httpRequest "GET" url none] ++
      (if verbose then [Effect.print s!"GET {url} {resp.status}"] else []) ++
      (if print_data then [Effect.printPretty body] else []),
     buildEndpoints a.api (asObj ((jget body "paths").getD (Json.obj []))))

/-- The success-path output of `make_request`: strip the body, parse it as
JSON (falling back to the stripped text), print nothing when it is falsy,
pretty-print dicts and plain-print everything else. -/
def successOutput (body : String) : List Effect :=
  if (pyStrip body).isEmpty then []
  else
    let parsed :=
      match jsonLoads body with
      | some j => j
      | none => Json.str (pyStrip body)
    if pyTruthy parsed then
      if parsed.isDict then [Effect.printPretty parsed]
      else [Effect.printPlain parsed]
    else []

/-- `API.make_request`: dispatch `{method} {server}{api}/{endpoint}` with the
bearer token and optional JSON body, report non-ok responses, and print the
parsed successful response. -/
def API.make_request (a : API) (endpoint http_method : String)
    (verbose : Bool) (post_data : Option Json)
    (resp : HttpResponse) (respBody : String) : List Effect :=
  let url := a.server ++ a.api ++ "/" ++ endpoint
  let verboseData :=
    if verbose ∧ (http_method = "POST" ∨ http_method = "PATCH") ∧ post_data.isSome
    then [Effect.printPretty (post_data.getD Json.null)]
    else []
  if ¬ resp.status < 400 then
    verboseData ++
      [Effect.httpRequest http_method url post_data,
       Effect.print (requestFailedMsg resp.status resp.reason),
       Effect.print url]
  else
    verboseData ++
      [Effect.httpRequest http_method url post_data] ++
      (if verbose then [Effect.print s!"{http_method} {url} {resp.status}"] else []) ++
      successOutput respBody

/-- `determine_http_method`; `none` models the `IndexError` raised by
`list(methods.keys())[0]` on an empty method map. -/
def determine_http_method (delete patch : Bool) (dataArg : Option String)
    (endpointArg : String) (endpoints : Catalog) : Option String :=
  if delete then some "DELETE"
  else if patch then some "PATCH"
  else if dataArg.isSome then some "POST"
  else
    match alistGet endpoints endpointArg with
    | none => some "GET"
    | some methods =>
      if (alistGet methods "GET").isSome then some "GET"
      else methods.head?.map Prod.fst

/-- `f"No {http_method} data schema for {endpoint}"`. -/
def noSchemaMsg (http_method endpoint : String) : String :=
  s!"No {http_method} data schema for {endpoint}"

/-- `f"{endpoint} {http_method} requires an object"`. -/
def requiresObjectMsg (endpoint http_method : String) : String :=
  s!"{endpoint} {http_method} requires an object"

/-- `try: loaded = json.loads(args.data) except json.JSONDecodeError: loaded
= args.data`. -/
def loadData (d : String) : Json :=
  match jsonLoads d with
  | some j => j
  | none => Json.str d

/-- `process_post_data`: build the request body from the raw data argument
and the catalog schema (returns the printed messages and the body). -/
def process_post_data (http_method : String) (endpointArg : String)
    (dataArg : Option String) (endpoints : Catalog) :
    List Effect × Option Json :=
  if ¬ (http_method = "POST" ∨ http_method = "PATCH") then ([], none)
  else
    match dataArg with
    | none => ([], none)
    | some d =>
      let loaded := loadData d
      if loaded.isDict then ([], some loaded)
      else
        match (alistGet ((alistGet endpoints endpointArg).getD []) http_method).bind
            MethodDetails.schema with
        | none => ([Effect.print (noSchemaMsg http_method endpointArg)], none)
        | some schema =>
          if ¬ isJsonStr (jget schema "type") "object" then ([], some loaded)
          else
            let properties := (jget schema "properties").getD (Json.obj [])
            let required := asArr ((jget schema "required").getD (Json.arr []))
            if required.length ≠ 1 then
              ([Effect.print (requiresObjectMsg endpointArg http_method)], none)
            else
              let key := jKeyStr (required.headI)
              let loaded1 :=
                if isJsonStr (jget ((jget properties key).getD (Json.obj []))
                    "type") "number" then
                  match pyFloat loaded with
                  | some value =>
                    if value.den = 1 then Json.int value.num else Json.float value
                  | none => loaded
                else loaded
              ([], some (Json.obj [(key, loaded1)]))

/-- The parsed command line (defaults as in `parse_arguments`). -/
structure Args where
  server : String := "http://localhost:26538"
  api : String := "/api/v1"
  user : String := "youtube-music-control"
  patch : Bool := false
  delete : Bool := false
  list : Bool := false
  verbose : Bool := false
  endpoint : Option String := none
  data : Option String := none

/-- Python truthiness of an optional string (`if not args.endpoint`). -/
def pyTruthyOptStr : Option String → Bool
  | none => false
  | some s => ¬ s.isEmpty

namespace Client

/-- `main`: the whole run, as the list of its observable effects. -/
def main (args : Args) (env : Env) : List Effect :=
  if args.delete ∧ args.patch then
    [Effect.usageError
      "Cannot specify both --delete and --patch options simultaneously."]
  else
    let a := API.init args.server args.api
    if args.list then
      let fetched := a.fetch_api_doc args.verbose args.verbose env.doc env.docJson
      fetched.1 ++ [Effect.displayList fetched.2]
    else if ¬ pyTruthyOptStr args.endpoint then [Effect.printHelp]
    else
      let endpoint := args.endpoint.getD ""
      let fetched := a.fetch_api_doc args.verbose false env.doc env.docJson
      match determine_http_method args.delete args.patch args.data endpoint
          fetched.2 with
      | none => fetched.1 ++ [Effect.crash]
      | some http_method =>
        let processed := process_post_data http_method endpoint args.data fetched.2
        let authed := a.authenticate args.user args.verbose env.auth env.authJson
        let dispatch :=
          match authed.2 with
          | some t =>
            if pyTruthy t then
              a.make_request endpoint http_method args.verbose processed.2
                env.req env.reqBody
            else []
          | none => []
        fetched.1 ++ processed.1 ++ authed.1 ++ dispatch

end Client

/-! ### General lemmas about the dict model -/

theorem alistGet_alistSet {α : Type} (l : List (String × α)) (k e : String)
    (v : α) :
    alistGet (alistSet l k v) e = if k = e then some v else alistGet l e := by
  induction l with
  | nil => simp [alistSet, alistGet]
  | cons hd tl ih =>
    obtain ⟨k', v'⟩ := hd
    simp only [alistSet, alistGet]
    by_cases hk : k' = k
    · rw [if_pos hk]
      simp only [alistGet]
      by_cases hke : k = e
      · rw [if_pos hke, if_pos hke]
      · have hk'e : ¬ k' = e := by rw [hk]; exact hke
        rw [if_neg hke, if_neg hke, if_neg hk'e]
    · rw [if_neg hk]
      simp only [alistGet]
      by_cases hk'e : k' = e
      · have hke : ¬ k = e := fun h => hk (hk'e.trans h.symm)
        rw [if_pos hk'e, if_neg hke, if_pos hk'e]
      · rw [if_neg hk'e, ih]
        by_cases hke : k = e
        · rw [if_pos hke, if_pos hke]
        · rw [if_neg hke, if_neg hke, if_neg hk'e]

theorem alistGet_alistSet_isSome {α : Type} (l : List (String × α))
    (k e : String) (v : α) (h : (alistGet (alistSet l k v) e).isSome) :
    e = k ∨ (alistGet l e).isSome := by
  rw [alistGet_alistSet] at h
  by_cases hke : k = e
  · exact Or.inl hke.symm
  · rw [if_neg hke] at h
    exact Or.inr h

/-! ### C2: HTTP method resolution priority -/

/-- C2: for every argument set and catalog, `determine_http_method` follows
the spec's priority order with first match winning: `--delete` gives DELETE;
else `--patch` gives PATCH; else a supplied data argument gives POST; else an
endpoint absent from the catalog gives GET; else GET if the endpoint's method
map contains GET; else the first method of the endpoint in catalog iteration
order.  In particular, with both flags absent and data present the resolved
method is POST regardless of catalog contents. -/
theorem C2_method_resolution_priority (delete patch : Bool)
    (dataArg : Option String) (ep : String) (cat : Catalog) :
    (delete = true →
      determine_http_method delete patch dataArg ep cat = some "DELETE") ∧
    (delete = false → patch = true →
      determine_http_method delete patch dataArg ep cat = some "PATCH") ∧
    (delete = false → patch = false → dataArg.isSome = true →
      determine_http_method delete patch dataArg ep cat = some "POST") ∧
    (delete = false → patch = false → dataArg = none → alistGet cat ep = none →
      determine_http_method delete patch dataArg ep cat = some "GET") ∧
    (∀ ms, delete = false → patch = false → dataArg = none →
      alistGet cat ep = some ms → (alistGet ms "GET").isSome = true →
      determine_http_method delete patch dataArg ep cat = some "GET") ∧
    (∀ ms, delete = false → patch = false → dataArg = none →
      alistGet cat ep = some ms → (alistGet ms "GET").isSome = false →
      determine_http_method delete patch dataArg ep cat =
        ms.head?.map Prod.fst) := by
  refine ⟨?_, ?_, ?_, ?_, ?_, ?_⟩
  · intro h; simp [determine_http_method, h]
  · intro h1 h2; simp [determine_http_method, h1, h2]
  · intro h1 h2 h3; simp [determine_http_method, h1, h2, h3]
  · intro h1 h2 h3 h4; simp [determine_http_method, h1, h2, h3, h4]
  · intro ms h1 h2 h3 h4 h5; simp [determine_http_method, h1, h2, h3, h4, h5]
  · intro ms h1 h2 h3 h4 h5; simp [determine_http_method, h1, h2, h3, h4, h5]

/-- C2 witness: concrete instances of the priority rules — data present and
flags absent resolves to POST on an empty catalog, and `--delete` wins over
everything. -/
theorem C2_method_resolution_priority_witness :
    determine_http_method false false (some "75") "volume" [] = some "POST" ∧
    determine_http_method true true (some "75") "volume" [] = some "DELETE" := by
  refine ⟨?_, ?_⟩
  · exact (C2_method_resolution_priority false false (some "75") "volume"
      []).2.2.1 rfl rfl rfl
  · exact (C2_method_resolution_priority true true (some "75") "volume"
      []).1 rfl

/-! ### C4: JSON-object data argument passes through verbatim -/

/-- C4: whenever the raw data argument parses as a JSON object,
`process_post_data` returns that object verbatim as the body — no message is
printed, no schema lookup and no coercion is applied — for every endpoint
and every catalog. -/
theorem C4_object_passthrough (m ep raw : String) (cat : Catalog)
    (kvs : List (String × Json)) (hm : m = "POST" ∨ m = "PATCH")
    (hp : jsonLoads raw = some (Json.obj kvs)) :
    process_post_data m ep (some raw) cat = ([], some (Json.obj kvs)) := by
  simp only [process_post_data, if_neg (not_not_intro hm), loadData, hp]
  simp [Json.isDict]

/-- C4 witness: the literal `{"a": 1}` is returned unchanged on an empty
catalog. -/
theorem C4_object_passthrough_witness :
    jsonLoads "\x7b\"a\": 1\x7d" = some (Json.obj [("a", Json.int 1)]) ∧
    process_post_data "POST" "volume" (some "\x7b\"a\": 1\x7d") [] =
      ([], some (Json.obj [("a", Json.int 1)])) := by
  refine ⟨rfl, ?_⟩
  exact C4_object_passthrough "POST" "volume" _ [] _ (Or.inl rfl) rfl

/-! ### C3: numeric coercion of a non-object data argument -/

/-- C3: for a POST/PATCH body built from a non-object data argument under an
object schema with exactly one required property of declared type "number":
if the value converts to a float it is wrapped as the property, narrowed to
an integer representation exactly when it has no fractional part; if the
conversion fails the original value is wrapped unchanged and no message is
printed. -/
theorem C3_numeric_coercion (m ep raw : String) (cat : Catalog) (loaded : Json)
    (k : String) (schema : Json)
    (hm : m = "POST" ∨ m = "PATCH")
    (hload : loadData raw = loaded)
    (hnd : loaded.isDict = false)
    (hsch : (alistGet ((alistGet cat ep).getD []) m).bind
      MethodDetails.schema = some schema)
    (hty : isJsonStr (jget schema "type") "object" = true)
    (hreq : asArr ((jget schema "required").getD (Json.arr [])) = [Json.str k])
    (hnum : isJsonStr (jget (((jget ((jget schema "properties").getD
      (Json.obj [])) k)).getD (Json.obj [])) "type") "number" = true) :
    (∀ q : ℚ, pyFloat loaded = some q → q.den = 1 →
      process_post_data m ep (some raw) cat =
        ([], some (Json.obj [(k, Json.int q.num)]))) ∧
    (∀ q : ℚ, pyFloat loaded = some q → q.den ≠ 1 →
      process_post_data m ep (some raw) cat =
        ([], some (Json.obj [(k, Json.float q)]))) ∧
    (pyFloat loaded = none →
      process_post_data m ep (some raw) cat =
        ([], some (Json.obj [(k, loaded)]))) := by
  refine ⟨?_, ?_, ?_⟩
  · intro q hq hden
    simp [process_post_data, not_not_intro hm, hload, hnd, hsch, hty, hreq,
      jKeyStr, hnum, hq, hden]
  · intro q hq hden
    simp [process_post_data, not_not_intro hm, hload, hnd, hsch, hty, hreq,
      jKeyStr, hnum, hq, hden]
  · intro hq
    simp [process_post_data, not_not_intro hm, hload, hnd, hsch, hty, hreq,
      jKeyStr, hnum, hq]

/-- The schema and catalog of the C3 witness: a `volume` endpoint whose POST
schema requires exactly the number property `volume`. -/
def volumeCatalog : Catalog :=
  [("volume", [("POST",
    ⟨Json.str "Set volume", some (Json.str "level"),
     some (Json.obj
      [("type", Json.str "object"),
       ("required", Json.arr [Json.str "volume"]),
       ("properties", Json.obj
         [("volume", Json.obj [("type", Json.str "number")])])])⟩)])]

/-- C3 witness: raw text `"75"` against a volume schema requiring the single
number property `volume` is wrapped as the integer `75` (not `75.0`). -/
theorem C3_numeric_coercion_witness :
    pyFloat (Json.int 75) = some ((75 : Int) : ℚ) ∧
    (((75 : Int) : ℚ)).den = 1 ∧
    process_post_data "POST" "volume" (some "75") volumeCatalog =
      ([], some (Json.obj [("volume", Json.int 75)])) := by
  refine ⟨rfl, rfl, ?_⟩
  exact (C3_numeric_coercion "POST" "volume" "75" volumeCatalog (Json.int 75)
    "volume"
    (Json.obj
      [("type", Json.str "object"),
       ("required", Json.arr [Json.str "volume"]),
       ("properties", Json.obj
         [("volume", Json.obj [("type", Json.str "number")])])])
    (Or.inl rfl) rfl rfl rfl rfl rfl rfl).1 ((75 : Int) : ℚ) rfl rfl

/-! ### C5: the catalog only contains filtered, prefix-stripped endpoints -/

theorem foldl_addMethod_isSome (ep : String) (ms : List (String × Json))
    (eps : Catalog) (e : String)
    (h : (alistGet (ms.foldl (addMethod ep) eps) e).isSome) :
    e = ep ∨ (alistGet eps e).isSome := by
  induction ms generalizing eps with
  | nil => exact Or.inr h
  | cons md t ih =>
    rcases ih (addMethod ep eps md) h with h1 | h2
    · exact Or.inl h1
    · exact (alistGet_alistSet_isSome _ _ _ _ h2).imp id id

theorem addPath_isSome (api : String) (eps : Catalog) (pm : String × Json)
    (e : String) (h : (alistGet (addPath api eps pm) e).isSome) :
    (alistGet eps e).isSome ∨
      (pyStartsWith pm.1 api = true ∧ pyEndsWith pm.1 "-info" = false ∧
        e = lstripSlash (strDrop pm.1 api.length)) := by
  unfold addPath at h
  by_cases h1 : pyStartsWith pm.1 api
  · by_cases h2 : pyEndsWith pm.1 "-info"
    · rw [if_neg (by simp [h1]), if_pos (by simp [h2])] at h
      exact Or.inl h
    · rw [if_neg (by simp [h1]), if_neg (by simp [h2])] at h
      rcases foldl_addMethod_isSome _ _ _ _ h with he | hsome
      · exact Or.inr ⟨by simpa using h1, by simpa using h2, he⟩
      · by_cases h3 : (alistGet eps (lstripSlash (strDrop pm.1 api.length))).isNone
        · rw [if_pos h3] at hsome
          rcases alistGet_alistSet_isSome _ _ _ _ hsome with he | hsome'
          · exact Or.inr ⟨by simpa using h1, by simpa using h2, he⟩
          · exact Or.inl hsome'
        · rw [if_neg h3] at hsome
          exact Or.inl hsome
  · rw [if_pos (by simp [h1])] at h
    exact Or.inl h

theorem foldl_addPath_isSome (api : String) (paths : List (String × Json))
    (acc : Catalog) (e : String)
    (h : (alistGet (paths.foldl (addPath api) acc) e).isSome) :
    (alistGet acc e).isSome ∨
      ∃ p, p ∈ paths ∧ pyStartsWith p.1 api = true ∧
        pyEndsWith p.1 "-info" = false ∧
        e = lstripSlash (strDrop p.1 api.length) := by
  induction paths generalizing acc with
  | nil => exact Or.inl h
  | cons pm t ih =>
    rcases ih (addPath api acc pm) h with h1 | h2
    · rcases addPath_isSome api acc pm e h1 with ha | hb
      · exact Or.inl ha
      · exact Or.inr ⟨pm, List.mem_cons_self _ _, hb⟩
    · obtain ⟨p, hp, h3, h4, h5⟩ := h2
      exact Or.inr ⟨p, List.mem_cons_of_mem _ hp, h3, h4, h5⟩

/-- C5: every endpoint of the catalog built by `fetch_api_doc` from a
discovery document is derived from a `paths` entry that starts with the
configured API prefix and does not end in `-info`, and its name is that path
with the prefix removed and leading `/` characters stripped; paths failing
either filter never contribute an endpoint. -/
theorem C5_catalog_path_filtering (a : API) (verbose print_data : Bool)
    (resp : HttpResponse) (body : Json) (e : String)
    (h : (alistGet (a.fetch_api_doc verbose print_data resp body).2 e).isSome) :
    ∃ p, p ∈ asObj ((jget body "paths").getD (Json.obj [])) ∧
      pyStartsWith p.1 a.api = true ∧ pyEndsWith p.1 "-info" = false ∧
      e = lstripSlash (strDrop p.1 a.api.length) := by
  unfold API.fetch_api_doc at h
  by_cases hs : resp.status ≠ 200
  · rw [if_pos hs] at h
    simp [alistGet] at h
  · rw [if_neg hs] at h
    simp only at h
    rcases foldl_addPath_isSome a.api _ [] e h with h1 | h2
    · simp [alistGet] at h1
    · exact h2

/-- C5 witness: from a document with one in-prefix path `/api/v1/play`, one
out-of-prefix path and one `-info` path, the endpoint `play` of the catalog
is derived from `/api/v1/play`. -/
theorem C5_catalog_path_filtering_witness :
    (alistGet ((API.init "http://localhost:26538" "/api/v1").fetch_api_doc
        false false ⟨200, "OK"⟩ (Json.obj [("paths", Json.obj
          [("/api/v1/play", Json.obj [("get", Json.obj [])]),
           ("/other/path", Json.obj [("get", Json.obj [])]),
           ("/api/v1/song-info", Json.obj [("get", Json.obj [])])])])).2
      "play").isSome = true ∧
    ∃ p, p ∈ asObj ((jget (Json.obj [("paths", Json.obj
          [("/api/v1/play", Json.obj [("get", Json.obj [])]),
           ("/other/path", Json.obj [("get", Json.obj [])]),
           ("/api/v1/song-info", Json.obj [("get", Json.obj [])])])])
        "paths").getD (Json.obj [])) ∧
      pyStartsWith p.1 "/api/v1" = true ∧ pyEndsWith p.1 "-info" = false ∧
      "play" = lstripSlash (strDrop p.1 ("/api/v1" : String).length) := by
  refine ⟨rfl, ?_⟩
  exact C5_catalog_path_filtering (API.init "http://localhost:26538" "/api/v1")
    false false ⟨200, "OK"⟩ (Json.obj [("paths", Json.obj
      [("/api/v1/play", Json.obj [("get", Json.obj [])]),
       ("/other/path", Json.obj [("get", Json.obj [])]),
       ("/api/v1/song-info", Json.obj [("get", Json.obj [])])])]) "play" rfl

/-! ### C9: totality of method resolution -/

/-- C9 counterexample: the fetch loop creates a catalog entry with an empty
method map from a path whose operations object is empty, and method
resolution on that endpoint (no flags, no data) hits
`list(methods.keys())[0]` on an empty map and fails (`IndexError`, modelled
as `none`) — so resolution is not total over catalogs the fetch can
produce. -/
theorem C9_resolution_counterexample :
    alistGet (buildEndpoints "/api/v1" [("/api/v1/foo", Json.obj [])]) "foo" =
      some [] ∧
    determine_http_method false false none "foo"
      (buildEndpoints "/api/v1" [("/api/v1/foo", Json.obj [])]) = none := by
  exact ⟨rfl, rfl⟩

/-- C9 (amended): method resolution returns a method whenever the endpoint is
absent from the catalog or its method map is non-empty; only a catalog entry
with an empty method map — which the fetch can create from a path with an
empty operations object — makes it fail. -/
theorem C9_resolution_total_on_nonempty (delete patch : Bool)
    (dataArg : Option String) (ep : String) (cat : Catalog)
    (h : alistGet cat ep = none ∨
      ∃ ms, alistGet cat ep = some ms ∧ ms ≠ []) :
    (determine_http_method delete patch dataArg ep cat).isSome = true := by
  unfold determine_http_method
  by_cases hd : delete
  · simp [hd]
  · by_cases hp : patch
    · simp [hd, hp]
    · by_cases hda : dataArg.isSome
      · simp [hd, hp, hda]
      · rcases h with h | ⟨ms, hms, hne⟩
        · simp [hd, hp, hda, h]
        · rw [if_neg hd, if_neg hp, if_neg hda, hms]
          by_cases hg : (alistGet ms "GET").isSome
          · simp [hg]
          · simp only [if_neg hg]
            match ms, hne with
            | (m0 :: rest), _ => simp

/-- C9 amended witness: resolution succeeds on an endpoint absent from the
empty catalog. -/
theorem C9_resolution_total_on_nonempty_witness :
    (determine_http_method false false none "volume" []).isSome = true := by
  exact C9_resolution_total_on_nonempty false false none "volume" []
    (Or.inl rfl)

/-! ### C10: trailing-slash invariance of the configuration -/

theorem dropWhile_append_of_forall {α : Type} (p : α → Bool)
    (xs ys : List α) (h : ∀ x ∈ xs, p x = true) :
    (xs ++ ys).dropWhile p = ys.dropWhile p := by
  induction xs with
  | nil => rfl
  | cons a t ih =>
    rw [List.cons_append, List.dropWhile_cons, if_pos (h a (by simp))]
    exact ih fun x hx => h x (by simp [hx])

theorem rstripSlash_append_slashes (s t : String)
    (ht : ∀ c ∈ t.data, c = '/') :
    rstripSlash (s ++ t) = rstripSlash s := by
  unfold rstripSlash
  rw [String.data_append, List.reverse_append]
  rw [dropWhile_append_of_forall _ _ _
    (fun c hc => by simp [ht c (List.mem_reverse.mp hc)])]

/-- C10: the client is invariant under trailing slashes in its configuration:
appending any run of `/` characters to the server base URL and to the API
prefix yields the same constructed `API` object, hence the same
authentication, discovery and request behaviour (same URLs, same catalog,
same dispatched requests). -/
theorem C10_trailing_slash_invariance (server api t u : String)
    (ht : ∀ c ∈ t.data, c = '/') (hu : ∀ c ∈ u.data, c = '/') :
    API.init (server ++ t) (api ++ u) = API.init server api ∧
    (∀ user verbose resp body,
      (API.init (server ++ t) (api ++ u)).authenticate user verbose resp body =
        (API.init server api).authenticate user verbose resp body) ∧
    (∀ verbose print_data resp body,
      (API.init (server ++ t) (api ++ u)).fetch_api_doc verbose print_data
          resp body =
        (API.init server api).fetch_api_doc verbose print_data resp body) ∧
    (∀ ep m verbose post_data resp respBody,
      (API.init (server ++ t) (api ++ u)).make_request ep m verbose post_data
          resp respBody =
        (API.init server api).make_request ep m verbose post_data resp
          respBody) := by
  have hinit : API.init (server ++ t) (api ++ u) = API.init server api := by
    unfold API.init
    rw [rstripSlash_append_slashes server t ht,
      rstripSlash_append_slashes api u hu]
  exact ⟨hinit, fun _ _ _ _ => by rw [hinit], fun _ _ _ _ => by rw [hinit],
    fun _ _ _ _ _ _ => by rw [hinit]⟩

/-- C10 witness: a concrete configuration with trailing slashes builds the
same client object as the stripped one. -/
theorem C10_trailing_slash_invariance_witness :
    API.init ("http://localhost:26538" ++ "/") ("/api/v1" ++ "//") =
      API.init "http://localhost:26538" "/api/v1" := by
  exact (C10_trailing_slash_invariance "http://localhost:26538" "/api/v1"
    "/" "//" (by decide) (by decide)).1

/-! ### C8: formatting of a successful response body -/

/-- C8 counterexample: two successful (200) responses refute the claimed
output rule.  A body `"0"` parses to the non-structured value `0`, which the
claim says is printed as-is, but the code prints nothing (Python falsiness
guard); a body `"[1, 2]"` parses to an array, which the claim says is
pretty-printed with indentation, but the code prints it as-is
(`isinstance(parsed_data, dict)` only pretty-prints dicts). -/
theorem C8_formatting_counterexample :
    jsonLoads "0" = some (Json.int 0) ∧
    (pyStrip "0").isEmpty = false ∧
    (API.init "http://localhost:26538" "/api/v1").make_request "song" "GET"
      false none ⟨200, "OK"⟩ "0" =
      [Effect.httpRequest "GET" "http://localhost:26538/api/v1/song" none] ∧
    jsonLoads "[1, 2]" = some (Json.arr [Json.int 1, Json.int 2]) ∧
    (API.init "http://localhost:26538" "/api/v1").make_request "song" "GET"
      false none ⟨200, "OK"⟩ "[1, 2]" =
      [Effect.httpRequest "GET" "http://localhost:26538/api/v1/song" none,
       Effect.printPlain (Json.arr [Json.int 1, Json.int 2])] := by
  exact ⟨rfl, rfl, rfl, rfl, rfl⟩

/-- C8 (amended): on a successful response the body is parsed as JSON when
possible, falls back to the stripped raw text when not valid JSON, and
produces no output when the body is empty/whitespace-only or when the parsed
value is falsy (`0`, `false`, `null`, empty string/array/object); the
printed result is pretty-printed with indentation exactly when the parsed
value is a JSON object (dict); arrays and scalars are printed as-is. -/
theorem C8_success_output_formatting (a : API) (ep m : String)
    (resp : HttpResponse) (bodyText : String)
    (h2xx : 200 ≤ resp.status ∧ resp.status < 300) :
    a.make_request ep m false none resp bodyText =
      [Effect.httpRequest m (a.server ++ a.api ++ "/" ++ ep) none] ++
        successOutput bodyText ∧
    ((pyStrip bodyText).isEmpty = true → successOutput bodyText = []) ∧
    (∀ j, jsonLoads bodyText = some j → (pyStrip bodyText).isEmpty = false →
      pyTruthy j = false → successOutput bodyText = []) ∧
    (∀ kvs, jsonLoads bodyText = some (Json.obj kvs) →
      (pyStrip bodyText).isEmpty = false → pyTruthy (Json.obj kvs) = true →
      successOutput bodyText = [Effect.printPretty (Json.obj kvs)]) ∧
    (∀ j, jsonLoads bodyText = some j → (pyStrip bodyText).isEmpty = false →
      j.isDict = false → pyTruthy j = true →
      successOutput bodyText = [Effect.printPlain j]) ∧
    (jsonLoads bodyText = none → (pyStrip bodyText).isEmpty = false →
      successOutput bodyText = [Effect.printPlain (Json.str (pyStrip bodyText))]) := by
  refine ⟨?_, ?_, ?_, ?_, ?_, ?_⟩
  · have hok : ¬ ¬ resp.status < 400 :=
      not_not_intro (lt_of_lt_of_le h2xx.2 (by norm_num))
    simp [API.make_request, hok]
  · intro h; simp [successOutput, h]
  · intro j hj hne htr; simp [successOutput, hj, hne, htr]
  · intro kvs hj hne htr; simp [successOutput, hj, hne, htr, Json.isDict]
  · intro j hj hne hnd htr; simp [successOutput, hj, hne, hnd, htr]
  · intro hj hne
    simp [successOutput, hj, hne, pyTruthy, Json.isDict, String.isEmpty_iff]

/-- C8 amended witness: a 200 response whose body is a non-empty JSON object
is pretty-printed. -/
theorem C8_success_output_formatting_witness :
    (200 ≤ 200 ∧ 200 < 300) ∧
    successOutput "\x7b\"playing\": true\x7d" =
      [Effect.printPretty (Json.obj [("playing", Json.bool true)])] := by
  refine ⟨by norm_num, ?_⟩
  exact (C8_success_output_formatting (API.init "http://localhost:26538"
    "/api/v1") "song" "GET" ⟨200, "OK"⟩ "\x7b\"playing\": true\x7d"
    ⟨by norm_num, by norm_num⟩).2.2.2.1 [("playing", Json.bool true)] rfl rfl rfl

/-! ### C6: authentication failure halts the run before dispatch -/

/-- C6: when the authentication POST returns a non-200 status, `authenticate`
returns no token, the failure message naming the status and the auth URL is
printed, and the run's trace ends with those prints — `make_request` is never
reached, so the main request to the chosen endpoint is not dispatched. -/
theorem C6_auth_failure_halts (args : Args) (env : Env) (m : String)
    (hflags : ¬ (args.delete ∧ args.patch))
    (hlist : args.list = false)
    (hep : pyTruthyOptStr args.endpoint = true)
    (hmeth : determine_http_method args.delete args.patch args.data
      (args.endpoint.getD "")
      ((API.init args.server args.api).fetch_api_doc args.verbose false
        env.doc env.docJson).2 = some m)
    (hauth : env.auth.status ≠ 200) :
    ((API.init args.server args.api).authenticate args.user args.verbose
      env.auth env.authJson).2 = none ∧
    Client.main args env =
      ((API.init args.server args.api).fetch_api_doc args.verbose false
        env.doc env.docJson).1 ++
      (process_post_data m (args.endpoint.getD "") args.data
        ((API.init args.server args.api).fetch_api_doc args.verbose false
          env.doc env.docJson).2).1 ++
      [Effect.httpRequest "POST"
        (rstripSlash args.server ++ "/auth/" ++ args.user) none,
       Effect.print (requestFailedMsg env.auth.status env.auth.reason),
       Effect.print (rstripSlash args.server ++ "/auth/" ++ args.user)] := by
  constructor
  · simp [API.authenticate, hauth]
  · simp only [Client.main, if_neg hflags, hlist, Bool.false_eq_true,
      if_false, hep, not_true_eq_false, hmeth]
    simp only [API.authenticate, if_pos hauth, API.init]
    simp

/-- C6 witness: against a server whose doc endpoint fails with 500 and whose
auth endpoint answers 401, the whole run is the doc-fetch failure report plus
the auth failure report; nothing is dispatched to the chosen endpoint. -/
theorem C6_auth_failure_halts_witness :
    ((API.init "http://localhost:26538" "/api/v1").authenticate
      "youtube-music-control" false ⟨401, "Unauthorized"⟩ Json.null).2 =
        none ∧
    Client.main { endpoint := some "play" }
      { doc := ⟨500, "Internal Server Error"⟩, docJson := Json.null,
        auth := ⟨401, "Unauthorized"⟩, authJson := Json.null,
        req := ⟨200, "OK"⟩, reqBody := "" } =
      [Effect.httpRequest "GET" "http://localhost:26538/doc" none,
       Effect.print (requestFailedMsg 500 "Internal Server Error"),
       Effect.print "http://localhost:26538/doc",
       Effect.httpRequest "POST"
         "http://localhost:26538/auth/youtube-music-control" none,
       Effect.print (requestFailedMsg 401 "Unauthorized"),
       Effect.print "http://localhost:26538/auth/youtube-music-control"] := by
  exact C6_auth_failure_halts { endpoint := some "play" }
    { doc := ⟨500, "Internal Server Error"⟩, docJson := Json.null,
      auth := ⟨401, "Unauthorized"⟩, authJson := Json.null,
      req := ⟨200, "OK"⟩, reqBody := "" } "GET"
    (by decide) rfl rfl rfl (by decide)

/-! ### C7: doc-fetch failure degrades to an empty catalog and continues -/

theorem httpRequest_mem_make_request (a : API) (ep m : String) (v : Bool)
    (pd : Option Json) (resp : HttpResponse) (rb : String) :
    Effect.httpRequest m (a.server ++ a.api ++ "/" ++ ep) pd ∈
      a.make_request ep m v pd resp rb := by
  unfold API.make_request
  by_cases h : ¬ resp.status < 400
  · simp [h]
  · simp [h]

/-- C7: when the discovery-document fetch receives a non-200 response, it
reports the status, reason and URL and returns an empty catalog rather than
failing, and the run continues: method resolution succeeds on the empty
catalog and (the authentication having produced a truthy token) the main
request is still dispatched. -/
theorem C7_doc_failure_degrades (args : Args) (env : Env) (tok : Json)
    (hdoc : env.doc.status ≠ 200)
    (hflags : ¬ (args.delete ∧ args.patch))
    (hlist : args.list = false)
    (hep : pyTruthyOptStr args.endpoint = true)
    (hauth : env.auth.status = 200)
    (htok : jget env.authJson "accessToken" = some tok)
    (htr : pyTruthy tok = true) :
    (API.init args.server args.api).fetch_api_doc args.verbose false env.doc
        env.docJson =
      ([Effect.httpRequest "GET" (rstripSlash args.server ++ "/doc") none,
        Effect.print (requestFailedMsg env.doc.status env.doc.reason),
        Effect.print (rstripSlash args.server ++ "/doc")], []) ∧
    ∃ m, determine_http_method args.delete args.patch args.data
        (args.endpoint.getD "") [] = some m ∧
      ∃ b, Effect.httpRequest m
        (rstripSlash args.server ++ rstripSlash args.api ++ "/" ++
          args.endpoint.getD "") b ∈ Client.main args env := by
  have hfetch : (API.init args.server args.api).fetch_api_doc args.verbose
      false env.doc env.docJson =
      ([Effect.httpRequest "GET" (rstripSlash args.server ++ "/doc") none,
        Effect.print (requestFailedMsg env.doc.status env.doc.reason),
        Effect.print (rstripSlash args.server ++ "/doc")], []) := by
    simp [API.fetch_api_doc, API.init, hdoc]
  obtain ⟨m, hm⟩ : ∃ m, determine_http_method args.delete args.patch
      args.data (args.endpoint.getD "") [] = some m := by
    by_cases hd : args.delete
    · exact ⟨"DELETE", by simp [determine_http_method, hd]⟩
    · by_cases hp : args.patch
      · exact ⟨"PATCH", by simp [determine_http_method, hd, hp]⟩
      · by_cases hda : args.data.isSome
        · exact ⟨"POST", by simp [determine_http_method, hd, hp, hda]⟩
        · exact ⟨"GET", by simp [determine_http_method, hd, hp, hda, alistGet]⟩
  refine ⟨hfetch, m, hm, (process_post_data m (args.endpoint.getD "")
    args.data []).2, ?_⟩
  simp only [Client.main, if_neg hflags, hlist, Bool.false_eq_true, if_false,
    hep, not_true_eq_false, hfetch, hm]
  simp only [API.authenticate, if_neg (by simp [hauth] :
    ¬ env.auth.status ≠ 200), htok]
  simp only [htr, if_true]
  refine List.mem_append_right _ ?_
  exact httpRequest_mem_make_request _ _ _ _ _ _ _

/-- C7 witness: doc endpoint failing with 500 while auth succeeds — the
catalog degrades to empty, the method resolves to GET, and the GET to the
chosen endpoint is dispatched. -/
theorem C7_doc_failure_degrades_witness :
    (API.init "http://localhost:26538" "/api/v1").fetch_api_doc false false
        ⟨500, "Internal Server Error"⟩ Json.null =
      ([Effect.httpRequest "GET" "http://localhost:26538/doc" none,
        Effect.print (requestFailedMsg 500 "Internal Server Error"),
        Effect.print "http://localhost:26538/doc"], []) ∧
    ∃ m, determine_http_method false false none "play" [] = some m ∧
      ∃ b, Effect.httpRequest m "http://localhost:26538/api/v1/play" b ∈
        Client.main { endpoint := some "play" }
          { doc := ⟨500, "Internal Server Error"⟩, docJson := Json.null,
            auth := ⟨200, "OK"⟩,
            authJson := Json.obj [("accessToken", Json.str "tok")],
            req := ⟨200, "OK"⟩, reqBody := "" } := by
  exact C7_doc_failure_degrades { endpoint := some "play" }
    { doc := ⟨500, "Internal Server Error"⟩, docJson := Json.null,
      auth := ⟨200, "OK"⟩,
      authJson := Json.obj [("accessToken", Json.str "tok")],
      req := ⟨200, "OK"⟩, reqBody := "" } (Json.str "tok")
    (by decide) (by decide) rfl rfl rfl rfl rfl

/-! ### C1: schemaless POST payload — message printed, request dispatched -/

/-- C1: the failing run for the claim.  With endpoint `volume`, data `75`, a
catalog without a POST schema for `volume`, and successful authentication,
the code prints `No POST data schema for volume` but then still
authenticates and dispatches a body-less POST to the endpoint — the claimed
abort before dispatch does not happen (`process_post_data` returns `None`,
which `main` treats like "no data"; the sibling `src/main.py` returns from
`main` at this point instead). -/
theorem C1_schemaless_post_still_dispatched :
    Client.main { endpoint := some "volume", data := some "75" }
      { doc := ⟨200, "OK"⟩, docJson := Json.obj [("paths", Json.obj [])],
        auth := ⟨200, "OK"⟩,
        authJson := Json.obj [("accessToken", Json.str "tok")],
        req := ⟨200, "OK"⟩, reqBody := "" } =
      [Effect.httpRequest "GET" "http://localhost:26538/doc" none,
       Effect.print "No POST data schema for volume",
       Effect.httpRequest "POST"
         "http://localhost:26538/auth/youtube-music-control" none,
       Effect.httpRequest "POST" "http://localhost:26538/api/v1/volume"
         none] := by
  rfl
